import Mathlib

/-!
Verification of the host-side driver of the Hasseldorf emulator frontend
(`src/main.rs`): ROM loading, the benchmark run loop, and the interactive
run loop's three stages (frame throttle, input edge detector, cycle pacer),
together with the keyboard conversion table.

Machine integers are modelled as `Nat` with explicit reduction modulo
`2^32 = 4294967296` where the Rust code performs `u32` arithmetic that can
wrap. `std::time::Duration` values are modelled as a total nanosecond count
`e : Nat`; `Duration::subsec_nanos()` is then `e % 1000000000`.
-/

namespace Minifb

/-- The `minifb::Key` enumeration. The `match` in `convert_key` has no
wildcard arm and Rust requires exhaustiveness, so these are exactly the
variants the crate exposes. -/
inductive Key where
  | Key0 | Key1 | Key2 | Key3 | Key4 | Key5 | Key6 | Key7 | Key8 | Key9
  | A | B | C | D | E | F | G | H | I | J | K | L | M
  | N | O | P | Q | R | S | T | U | V | W | X | Y | Z
  | Space | Tab
  | Backslash | Comma | Equal | LeftBracket | Minus | Period | RightBracket | Semicolon
  | Slash | Enter
  | Backspace | Delete | End
  | F1 | F2 | F3 | F4 | F5 | F6 | F7 | F8 | F9 | F10 | F11 | F12 | F13 | F14 | F15
  | Down | Left | Right | Up | Apostrophe | Backquote
  | Escape
  | Home | Insert | Menu
  | PageDown | PageUp
  | Pause | NumLock | CapsLock | ScrollLock
  | LeftShift | RightShift | LeftCtrl | RightCtrl
  | NumPad0 | NumPad1 | NumPad2 | NumPad3 | NumPad4
  | NumPad5 | NumPad6 | NumPad7 | NumPad8 | NumPad9
  | NumPadDot | NumPadSlash | NumPadAsterisk | NumPadMinus | NumPadPlus | NumPadEnter
  | LeftAlt | RightAlt
  | LeftSuper | RightSuper
  | Unknown | Count
  deriving DecidableEq

end Minifb

namespace Hassel

/-- The emulated device's `hassel_emu::hassel::Key` type, modelled by the
variants the frontend's conversion table targets (the crate itself is an
external collaborator). It has no `Count` sentinel; `convert_key` sends
both `minifb::Key::Unknown` and `minifb::Key::Count` to `Unknown`. -/
inductive Key where
  | Key0 | Key1 | Key2 | Key3 | Key4 | Key5 | Key6 | Key7 | Key8 | Key9
  | A | B | C | D | E | F | G | H | I | J | K | L | M
  | N | O | P | Q | R | S | T | U | V | W | X | Y | Z
  | Space | Tab
  | Backslash | Comma | Equal | LeftBracket | Minus | Period | RightBracket | Semicolon
  | Slash | Enter
  | Backspace | Delete | End
  | F1 | F2 | F3 | F4 | F5 | F6 | F7 | F8 | F9 | F10 | F11 | F12 | F13 | F14 | F15
  | Down | Left | Right | Up | Apostrophe | Backquote
  | Escape
  | Home | Insert | Menu
  | PageDown | PageUp
  | Pause | NumLock | CapsLock | ScrollLock
  | LeftShift | RightShift | LeftCtrl | RightCtrl
  | NumPad0 | NumPad1 | NumPad2 | NumPad3 | NumPad4
  | NumPad5 | NumPad6 | NumPad7 | NumPad8 | NumPad9
  | NumPadDot | NumPadSlash | NumPadAsterisk | NumPadMinus | NumPadPlus | NumPadEnter
  | LeftAlt | RightAlt
  | LeftSuper | RightSuper
  | Unknown
  deriving DecidableEq

end Hassel

/-- `convert_key` from `src/main.rs`: the arm-for-arm translation of the
polled `minifb::Key` into the emulated device's `Key`. -/
def convert_key : Minifb.Key → Hassel.Key
  | .Key0 => .Key0
  | .Key1 => .Key1
  | .Key2 => .Key2
  | .Key3 => .Key3
  | .Key4 => .Key4
  | .Key5 => .Key5
  | .Key6 => .Key6
  | .Key7 => .Key7
  | .Key8 => .Key8
  | .Key9 => .Key9
  | .A => .A
  | .B => .B
  | .C => .C
  | .D => .D
  | .E => .E
  | .F => .F
  | .G => .G
  | .H => .H
  | .I => .I
  | .J => .J
  | .K => .K
  | .L => .L
  | .M => .M
  | .N => .N
  | .O => .O
  | .P => .P
  | .Q => .Q
  | .R => .R
  | .S => .S
  | .T => .T
  | .U => .U
  | .V => .V
  | .W => .W
  | .X => .X
  | .Y => .Y
  | .Z => .Z
  | .Space => .Space
  | .Tab => .Tab
  | .Backslash => .Backslash
  | .Comma => .Comma
  | .Equal => .Equal
  | .LeftBracket => .LeftBracket
  | .Minus => .Minus
  | .Period => .Period
  | .RightBracket => .RightBracket
  | .Semicolon => .Semicolon
  | .Slash => .Slash
  | .Enter => .Enter
  | .Backspace => .Backspace
  | .Delete => .Delete
  | .End => .End
  | .F1 => .F1
  | .F2 => .F2
  | .F3 => .F3
  | .F4 => .F4
  | .F5 => .F5
  | .F6 => .F6
  | .F7 => .F7
  | .F8 => .F8
  | .F9 => .F9
  | .F10 => .F10
  | .F11 => .F11
  | .F12 => .F12
  | .F13 => .F13
  | .F14 => .F14
  | .F15 => .F15
  | .Down => .Down
  | .Left => .Left
  | .Right => .Right
  | .Up => .Up
  | .Apostrophe => .Apostrophe
  | .Backquote => .Backquote
  | .Escape => .Escape
  | .Home => .Home
  | .Insert => .Insert
  | .Menu => .Menu
  | .PageDown => .PageDown
  | .PageUp => .PageUp
  | .Pause => .Pause
  | .NumLock => .NumLock
  | .CapsLock => .CapsLock
  | .ScrollLock => .ScrollLock
  | .LeftShift => .LeftShift
  | .RightShift => .RightShift
  | .LeftCtrl => .LeftCtrl
  | .RightCtrl => .RightCtrl
  | .NumPad0 => .NumPad0
  | .NumPad1 => .NumPad1
  | .NumPad2 => .NumPad2
  | .NumPad3 => .NumPad3
  | .NumPad4 => .NumPad4
  | .NumPad5 => .NumPad5
  | .NumPad6 => .NumPad6
  | .NumPad7 => .NumPad7
  | .NumPad8 => .NumPad8
  | .NumPad9 => .NumPad9
  | .NumPadDot => .NumPadDot
  | .NumPadSlash => .NumPadSlash
  | .NumPadAsterisk => .NumPadAsterisk
  | .NumPadMinus => .NumPadMinus
  | .NumPadPlus => .NumPadPlus
  | .NumPadEnter => .NumPadEnter
  | .LeftAlt => .LeftAlt
  | .RightAlt => .RightAlt
  | .LeftSuper => .LeftSuper
  | .RightSuper => .RightSuper
  | .Unknown => .Unknown
  | .Count => .Unknown

/-! ## Input edge detector (interactive run loop, `run_mode_default`)

Per iteration, after `window.get_keys()` returns `Some(keys_down)`:
every key of `keys_down` absent from `previous_keys` produces a
`key_down(convert_key(key))` call, every key of `previous_keys` absent from
`keys_down` produces a `key_up(convert_key(key))` call, and then
`previous_keys = keys_down`. A `None` poll skips the whole block.
Snapshots are the `Vec<minifb::Key>` values the window hands back, modelled
as lists; `Vec::contains` on a derived-`PartialEq` key type is list
membership. -/

/-- Keys of this poll that were absent from the previous poll: the keys for
which `key_down` fires, in the order `keys_down` is iterated. -/
def newly_down (keys_down previous_keys : List Minifb.Key) : List Minifb.Key :=
  keys_down.filter (fun k => !decide (k ∈ previous_keys))

/-- Keys of the previous poll that are absent from this poll: the keys for
which `key_up` fires, in the order `previous_keys` is iterated. -/
def newly_up (keys_down previous_keys : List Minifb.Key) : List Minifb.Key :=
  previous_keys.filter (fun k => !decide (k ∈ keys_down))

/-- One iteration of the input block of `run_mode_default`: from the poll
result and the previous snapshot, the emitted device calls (`true` for
`key_down`, `false` for `key_up`, each carrying the converted key, downs
in poll order then ups in previous-snapshot order) and the snapshot kept
for the next iteration. -/
def input_stage :
    Option (List Minifb.Key) → List Minifb.Key →
    List (Bool × Hassel.Key) × List Minifb.Key
  | none, previous_keys => ([], previous_keys)
  | some keys_down, previous_keys =>
      ((newly_down keys_down previous_keys).map (fun k => (true, convert_key k)) ++
        (newly_up keys_down previous_keys).map (fun k => (false, convert_key k)),
        keys_down)

/-! ## Cycle pacer (interactive run loop)

After `let cycles = emulator.step() as u32`, the code spins:
`loop { if Instant::now().duration_since(time_last_step).subsec_nanos() > cycles * 167u32 { time_last_step = Instant::now(); break } }`.
`cycles * 167u32` is `u32` multiplication, wrapping modulo `2^32`;
`subsec_nanos()` is the sub-second part of the elapsed time. -/

/-- The spin-loop budget `cycles * 167u32` (u32 arithmetic, so reduced
modulo `2^32 = 4294967296`). -/
def pacer_budget (cycles : ℕ) : ℕ :=
  (cycles * 167) % 4294967296

/-- `Duration::subsec_nanos()` of a duration of `e` nanoseconds. -/
def subsec_nanos (e : ℕ) : ℕ :=
  e % 1000000000

/-- The pacer spin-loop's exit test at a clock reading where `e` nanoseconds
have elapsed since `time_last_step`:
`since_last_step.subsec_nanos() > cycles * 167u32`. -/
def pacer_done (cycles e : ℕ) : Bool :=
  decide (pacer_budget cycles < subsec_nanos e)

/-- The pacer's spin-wait terminates for the step's cycle count when some
elapsed-time reading satisfies its exit test. -/
def PacerTerminates (cycles : ℕ) : Prop :=
  ∃ e, pacer_done cycles e = true

/-! ## Frame throttle (interactive run loop) -/

/-- The presentation threshold `13_000_000u32` nanoseconds compared against
`since_last_render.subsec_nanos()`. -/
def frame_threshold : ℕ := 13000000

/-- One frame-throttle check of `run_mode_default` at clock reading `now`
with mark `time_last_render` (both in nanoseconds since an arbitrary
origin): whether the frame is presented, and the mark afterwards. The code
presents when `since_last_render.subsec_nanos() > 13_000_000u32` and then
sets `time_last_render = Instant::now()`. -/
def frame_step (now time_last_render : ℕ) : Bool × ℕ :=
  if frame_threshold < subsec_nanos (now - time_last_render) then
    (true, now)
  else
    (false, time_last_render)

/-! ## Benchmark run loop (`run_mode_benchmark`) -/

/-- `bench_cycles = normal_time_seconds * normal_cycles_per_second`
with `normal_time_seconds = 20` and `normal_cycles_per_second = 6_000_000`. -/
def bench_cycles : ℕ := 20 * 6000000

/-- The accumulation loop
`while total_cycles < bench_cycles { total_cycles += emulator.step() as usize }`
with the target generalized to a parameter (the source instantiates it with
`bench_cycles`, see `run_mode_benchmark`). The engine is modelled by the
list `steps` of cycle counts its successive `step()` calls return; `none`
means the supplied trace ran out before the target was reached (the real
loop would keep calling `step()`). On exit it yields the accumulated
`total_cycles` and the number of `step()` calls made. -/
def benchLoop (target : ℕ) : List ℕ → ℕ → ℕ → Option (ℕ × ℕ)
  | [], total_cycles, calls =>
      if total_cycles < target then none else some (total_cycles, calls)
  | c :: rest, total_cycles, calls =>
      if total_cycles < target then benchLoop target rest (total_cycles + c) (calls + 1)
      else some (total_cycles, calls)

/-- The integer-valued quantities of the completion `println!` of
`run_mode_benchmark`: the figure printed as the cycle count is
`bench_cycles`; the speed ratio is `normal_time_seconds` (= 20) divided by
the measured seconds; the MHz figure is `total_cycles / 1_000_000`
(integer division, from the `usize` division before the `as f64` cast)
divided by the measured seconds. Wall-clock denominators are not modelled. -/
structure BenchReport where
  reported_cycles : ℕ
  ratio_numerator : ℕ
  mhz_numerator : ℕ
  deriving DecidableEq

/-- `run_mode_benchmark`, returning the completion report together with the
final `total_cycles` and the number of `step()` calls, for the engine trace
`steps`. -/
def run_mode_benchmark (steps : List ℕ) : Option (BenchReport × ℕ × ℕ) :=
  match benchLoop bench_cycles steps 0 0 with
  | none => none
  | some (total_cycles, calls) =>
      some (⟨bench_cycles, 20, total_cycles / 1000000⟩, total_cycles, calls)

/-! ## ROM loading (`load_rom` and its use in `main`) -/

/-- The outcome of the file-system interaction of `load_rom`: `File::open`
fails, `read_to_end` fails, or the file's full byte contents. -/
inductive RomFile where
  | openFail
  | readFail
  | content (bytes : List ℕ)
  deriving DecidableEq

/-- `load_rom` from `src/main.rs`, over the file-system outcome; the
required size `REQUIRED_ROM_SIZE` is a constant of the external
`hassel_emu` crate and is kept as a parameter. Error strings carry the
static part of the formatted messages. -/
def load_rom (required_rom_size : ℕ) : RomFile → Except String (List ℕ)
  | .openFail => .error "Failed to load ROM"
  | .readFail => .error "Failed to read ROM"
  | .content bytes =>
      if bytes.length ≠ required_rom_size then
        .error "ROM has unexpected size"
      else
        .ok bytes

/-- The ROM-loading stage of `main`: on `Err` the program prints the message
and calls `process::exit(1)` before any run loop starts (modelled as
`Except.error 1`, the exit status); on `Ok` the ROM bytes flow on into the
system build. -/
def main_rom_stage (required_rom_size : ℕ) (f : RomFile) : Except ℕ (List ℕ) :=
  match load_rom required_rom_size f with
  | .ok rom => .ok rom
  | .error _ => .error 1

/-! ## Theorems -/

/-- C10: `convert_key` is total — every polled key maps to some emulated
device key — but it is not injective: both the polled `Unknown` key and the
polled `Count` sentinel map to the device key `Unknown`, so two distinct
polled keys can produce identical device events. -/
theorem convert_key_total_not_injective :
    (∀ k : Minifb.Key, ∃ d : Hassel.Key, convert_key k = d) ∧
    convert_key Minifb.Key.Unknown = Hassel.Key.Unknown ∧
    convert_key Minifb.Key.Count = Hassel.Key.Unknown ∧
    Minifb.Key.Unknown ≠ Minifb.Key.Count ∧
    ¬ Function.Injective convert_key := by
  refine ⟨fun k => ⟨convert_key k, rfl⟩, rfl, rfl, by decide, fun hinj => ?_⟩
  have h : convert_key Minifb.Key.Unknown = convert_key Minifb.Key.Count := rfl
  exact absurd (hinj h) (by decide)

/-- C8: when the input poll returns `None`, the input stage emits no
`key_down` or `key_up` events and leaves the previous key snapshot
unchanged for the next iteration. -/
theorem input_stage_none (previous_keys : List Minifb.Key) :
    input_stage none previous_keys = ([], previous_keys) := rfl

/-- C8, instantiation of `input_stage_none` at a concrete snapshot. -/
theorem input_stage_none_witness :
    input_stage none [Minifb.Key.A] = ([], [Minifb.Key.A]) :=
  input_stage_none [Minifb.Key.A]

/-- C5, counterexample: with `cycles = 0` the budget is 0, yet the strict
comparison `subsec_nanos() > 0` fails at an elapsed time of exactly zero,
so the exit condition is not satisfied at every non-negative elapsed time
including zero. -/
theorem pacer_done_zero_at_zero :
    pacer_budget 0 = 0 ∧ pacer_done 0 0 = false := by decide

/-- C5 (amended): with `cycles = 0` the budget is 0 and the spin-loop exit
condition holds at every clock check whose sub-second elapsed time is
positive — so the pacer returns essentially immediately — but not at a
reading of exactly zero (or a whole number of seconds), where the strict
comparison fails. -/
theorem pacer_done_zero (e : ℕ) :
    pacer_budget 0 = 0 ∧ (pacer_done 0 e = true ↔ 0 < subsec_nanos e) := by
  refine ⟨rfl, ?_⟩
  simp [pacer_done, pacer_budget]

/-- C5, instantiation of `pacer_done_zero` at one elapsed nanosecond. -/
theorem pacer_done_zero_witness :
    pacer_budget 0 = 0 ∧ (pacer_done 0 1 = true ↔ 0 < subsec_nanos 1) :=
  pacer_done_zero 1

/-- C2, counterexample: for a step that returns 6,000,000 cycles the spin
budget is `6000000 * 167 = 1,002,000,000`, but `subsec_nanos()` of the
elapsed time is always below 1,000,000,000, so no clock reading ever
satisfies the exit test and the spin-wait never terminates. -/
theorem pacer_not_terminating_six_million : ¬ PacerTerminates 6000000 := by
  rintro ⟨e, he⟩
  rw [pacer_done, decide_eq_true_eq] at he
  have h1 : pacer_budget 6000000 = 1002000000 := by decide
  rw [h1, subsec_nanos] at he
  have h2 : e % 1000000000 < 1000000000 := Nat.mod_lt _ (by norm_num)
  omega

/-- C2 (amended): for every cycle count whose u32 budget `cycles * 167`
stays at most 999,999,998 the spin-wait terminates — the exit test holds at
the clock reading one nanosecond past the budget — and it blocks at least
until the sub-second elapsed time exceeds that budget: at every reading at
or below the budget the exit test is false (after which the code sets
`time_last_step` to now and breaks). For larger budgets no sub-second
reading can exceed the budget and the loop never exits. -/
theorem pacer_terminates_below_budget_cap (cycles : ℕ)
    (h : pacer_budget cycles + 1 < 1000000000) :
    PacerTerminates cycles ∧
    pacer_done cycles (pacer_budget cycles + 1) = true ∧
    ∀ e, subsec_nanos e ≤ pacer_budget cycles → pacer_done cycles e = false := by
  have hdone : pacer_done cycles (pacer_budget cycles + 1) = true := by
    rw [pacer_done, decide_eq_true_eq, subsec_nanos, Nat.mod_eq_of_lt (by omega)]
    omega
  refine ⟨⟨pacer_budget cycles + 1, hdone⟩, hdone, ?_⟩
  intro e he
  rw [pacer_done, decide_eq_false_iff_not]
  omega

/-- C2, instantiation of `pacer_terminates_below_budget_cap` at 1000
cycles (budget 167,000 ns). -/
theorem pacer_terminates_below_budget_cap_witness :
    pacer_budget 1000 + 1 < 1000000000 ∧
    (PacerTerminates 1000 ∧
      pacer_done 1000 (pacer_budget 1000 + 1) = true ∧
      ∀ e, subsec_nanos e ≤ pacer_budget 1000 → pacer_done 1000 e = false) :=
  ⟨by decide, pacer_terminates_below_budget_cap 1000 (by decide)⟩

/-- C4, counterexample: at `cycles = 25,720,636` the u32 product
`cycles * 167u32` wraps modulo `2^32` to 378,916, so the exit test already
holds at an elapsed time of 400,000 ns — far below the claimed minimum
`cycles * (1e9 / 6e6)` ns (about 4.29 s): `400000 * 6e6 < 25720636 * 1e9`. -/
theorem pacer_early_exit_on_wrap :
    pacer_done 25720636 400000 = true ∧
    400000 * 6000000 < 25720636 * 1000000000 := by
  refine ⟨by decide, by norm_num⟩

/-- C4 (amended): for every cycle count whose budget `cycles * 167` does
not overflow u32 — that is, `cycles * 167 < 2^32`, equivalently
`cycles ≤ 25,718,367`, since `25,718,368 * 167 = 4,294,967,456 > 2^32` —
the pacer's exit test can only hold once at least
`cycles * (1e9 / 6,000,000)` nanoseconds have elapsed since
`time_last_step` (the code waits for `cycles * 167` ns, and
`167 ≥ 1000/6`); in particular for `cycles = 1,000,000` it cannot return
before about 166.67 ms have elapsed. -/
theorem pacer_waits_full_budget (cycles e : ℕ)
    (hnw : cycles * 167 < 4294967296)
    (hdone : pacer_done cycles e = true) :
    cycles * 1000000000 ≤ e * 6000000 := by
  rw [pacer_done, decide_eq_true_eq, pacer_budget, Nat.mod_eq_of_lt hnw,
    subsec_nanos] at hdone
  have h2 : e % 1000000000 ≤ e := Nat.mod_le _ _
  omega

/-- C4, instantiation of `pacer_waits_full_budget` at one million cycles
and the first elapsed time the exit test accepts, 167,000,001 ns — which is
indeed at least 166,666,667 ns. -/
theorem pacer_waits_full_budget_witness :
    1000000 * 167 < 4294967296 ∧ pacer_done 1000000 167000001 = true ∧
    1000000 * 1000000000 ≤ 167000001 * 6000000 :=
  ⟨by decide, by decide,
    pacer_waits_full_budget 1000000 167000001 (by decide) (by decide)⟩

/-- C3, counterexample: with `time_last_render = 0` and `now` one full
second later — far beyond the 13 ms threshold — the elapsed duration's
`subsec_nanos()` is 0, so the check skips presentation and leaves the mark
unchanged: presentation is not equivalent to the elapsed wall-clock time
exceeding the threshold. -/
theorem frame_step_skips_after_whole_second :
    frame_step 1000000000 0 = (false, 0) ∧ frame_threshold < 1000000000 - 0 := by
  refine ⟨by decide, by decide⟩

/-- C3 (amended): each iteration presents a frame if and only if the
sub-second component of the wall-clock time elapsed since
`time_last_render` exceeds the 13,000,000 ns threshold (so a presentation
does imply that more than the threshold has really elapsed, but an elapsed
time of a whole second plus less than 13 ms is skipped); on presentation
the mark is reset to now, and on a skip it is left unchanged. -/
theorem frame_step_spec (now time_last_render : ℕ) :
    ((frame_step now time_last_render).1 = true ↔
      frame_threshold < subsec_nanos (now - time_last_render)) ∧
    ((frame_step now time_last_render).1 = true →
      frame_threshold < now - time_last_render) ∧
    (frame_step now time_last_render).2 =
      (if (frame_step now time_last_render).1 then now else time_last_render) := by
  unfold frame_step
  by_cases hc : frame_threshold < subsec_nanos (now - time_last_render)
  · have hle : subsec_nanos (now - time_last_render) ≤ now - time_last_render :=
      Nat.mod_le _ _
    simp only [if_pos hc]
    exact ⟨by simp [hc], fun _ => lt_of_lt_of_le hc hle, rfl⟩
  · simp only [if_neg hc]
    exact ⟨by simpa using hc, by simp, rfl⟩

/-- C3, instantiation of `frame_step_spec` 20 ms past the last render. -/
theorem frame_step_spec_witness :
    ((frame_step 20000000 0).1 = true ↔
      frame_threshold < subsec_nanos (20000000 - 0)) ∧
    ((frame_step 20000000 0).1 = true → frame_threshold < 20000000 - 0) ∧
    (frame_step 20000000 0).2 = (if (frame_step 20000000 0).1 then 20000000 else 0) :=
  frame_step_spec 20000000 0

/-- Helper for C7: whatever totals the accumulation loop is entered with,
if it exits then the accumulated total has met or exceeded the target. -/
theorem benchLoop_exit_ge (target : ℕ) :
    ∀ (steps : List ℕ) (t c total_cycles calls : ℕ),
      benchLoop target steps t c = some (total_cycles, calls) →
      target ≤ total_cycles := by
  intro steps
  induction steps with
  | nil =>
      intro t c total_cycles calls h
      rw [benchLoop] at h
      split at h
      · simp at h
      · rename_i hge
        simp only [Option.some.injEq, Prod.mk.injEq] at h
        omega
  | cons s rest ih =>
      intro t c total_cycles calls h
      rw [benchLoop] at h
      split at h
      · exact ih _ _ _ _ h
      · rename_i hge
        simp only [Option.some.injEq, Prod.mk.injEq] at h
        omega

/-- C7: whenever the benchmark accumulation loop (started from zero, as
`run_mode_benchmark` starts it) exits, the accumulated total of the cycle
counts returned by the engine's step calls has met or exceeded the target;
and with an engine stub returning 1000 cycles on every call and a target of
10,000 cycles, the loop completes in exactly 10 step calls with total
10,000. -/
theorem bench_total_meets_target (target : ℕ) (steps : List ℕ)
    (total_cycles calls : ℕ)
    (h : benchLoop target steps 0 0 = some (total_cycles, calls)) :
    target ≤ total_cycles ∧
    benchLoop 10000 (List.replicate 10 1000) 0 0 = some (10000, 10) :=
  ⟨benchLoop_exit_ge target steps 0 0 total_cycles calls h, by decide⟩

/-- C7, instantiation of `bench_total_meets_target` at the 1000-cycle stub
and the 10,000-cycle target. -/
theorem bench_total_meets_target_witness :
    benchLoop 10000 (List.replicate 10 1000) 0 0 = some (10000, 10) ∧
    (10000 ≤ 10000 ∧
      benchLoop 10000 (List.replicate 10 1000) 0 0 = some (10000, 10)) :=
  ⟨by decide,
    bench_total_meets_target 10000 (List.replicate 10 1000) 10000 10 (by decide)⟩

/-- C6, counterexample: with an engine whose two step calls return
70,000,000 cycles each, the loop exits with an accumulated total of
140,000,000 cycles after 2 calls, but the completion report prints
`bench_cycles` = 120,000,000 — the fixed target, not the accumulated
total — as its cycle figure. -/
theorem bench_report_prints_target_not_total :
    run_mode_benchmark [70000000, 70000000] =
      some (⟨120000000, 20, 140⟩, 140000000, 2) ∧
    (120000000 : ℕ) ≠ 140000000 := by
  refine ⟨by decide, by decide⟩

/-- C6 (amended): whenever the benchmark loop completes, the completion
report states the fixed target `bench_cycles` = 120,000,000 as its cycle
figure — not the accumulated total, which may exceed it — together with
the measured wall-clock duration, the nominal-to-measured ratio whose
numerator is the 20-second nominal duration, and an effective throughput
whose cycle numerator is the accumulated total divided by 1,000,000 in
integer division. -/
theorem bench_report_shape (steps : List ℕ) (total_cycles calls : ℕ)
    (h : benchLoop bench_cycles steps 0 0 = some (total_cycles, calls)) :
    run_mode_benchmark steps =
      some (⟨bench_cycles, 20, total_cycles / 1000000⟩, total_cycles, calls) ∧
    bench_cycles = 120000000 := by
  refine ⟨?_, rfl⟩
  unfold run_mode_benchmark
  rw [h]

/-- C6, instantiation of `bench_report_shape` at a single step returning
exactly the target. -/
theorem bench_report_shape_witness :
    benchLoop bench_cycles [120000000] 0 0 = some (120000000, 1) ∧
    (run_mode_benchmark [120000000] =
      some (⟨bench_cycles, 20, 120000000 / 1000000⟩, 120000000, 1) ∧
      bench_cycles = 120000000) :=
  ⟨by decide, bench_report_shape [120000000] 120000000 1 (by decide)⟩

/-- C9: ROM loading returns the file's bytes exactly when the file opens,
reads fully, and has exactly the required size; an open failure, a read
failure, or any other size yields an error, and `main` then reports the
error and ends the process with exit status 1 — non-zero — before any run
loop starts. -/
theorem load_rom_spec (required_rom_size : ℕ) (f : RomFile) :
    (∀ b, load_rom required_rom_size f = .ok b ↔
      (f = .content b ∧ b.length = required_rom_size)) ∧
    (∀ msg, load_rom required_rom_size f = .error msg →
      main_rom_stage required_rom_size f = .error 1 ∧ (1 : ℕ) ≠ 0) ∧
    (f = .openFail → ∃ m, load_rom required_rom_size f = .error m) ∧
    (f = .readFail → ∃ m, load_rom required_rom_size f = .error m) ∧
    (∀ b, f = .content b → b.length ≠ required_rom_size →
      ∃ m, load_rom required_rom_size f = .error m) := by
  cases f with
  | openFail =>
      refine ⟨by simp [load_rom], ?_, fun _ => ⟨_, rfl⟩, by simp, by simp⟩
      intro msg _
      exact ⟨rfl, by norm_num⟩
  | readFail =>
      refine ⟨by simp [load_rom], ?_, by simp, fun _ => ⟨_, rfl⟩, by simp⟩
      intro msg _
      exact ⟨rfl, by norm_num⟩
  | content bytes =>
      by_cases hlen : bytes.length = required_rom_size
      · refine ⟨?_, ?_, by simp, by simp, ?_⟩
        · intro b
          simp [load_rom, hlen]
          rintro rfl
          exact hlen
        · intro msg hmsg
          simp [load_rom, hlen] at hmsg
        · intro b hb hne
          cases hb
          exact absurd hlen hne
      · refine ⟨?_, ?_, by simp, by simp, ?_⟩
        · intro b
          rw [load_rom]
          simp only [if_pos hlen]
          constructor
          · intro h
            simp at h
          · rintro ⟨hcb, hbl⟩
            cases hcb
            exact absurd hbl hlen
        · intro msg _
          refine ⟨?_, by norm_num⟩
          simp [main_rom_stage, load_rom, hlen]
        · intro b hb _
          cases hb
          exact ⟨"ROM has unexpected size", by simp [load_rom, hlen]⟩

/-- C9, instantiation of `load_rom_spec` at a one-byte requirement and a
three-byte file. -/
theorem load_rom_spec_witness :
    (∀ b, load_rom 1 (RomFile.content [7, 7, 7]) = .ok b ↔
      (RomFile.content [7, 7, 7] = .content b ∧ b.length = 1)) ∧
    (∀ msg, load_rom 1 (RomFile.content [7, 7, 7]) = .error msg →
      main_rom_stage 1 (RomFile.content [7, 7, 7]) = .error 1 ∧ (1 : ℕ) ≠ 0) ∧
    (RomFile.content [7, 7, 7] = RomFile.openFail →
      ∃ m, load_rom 1 (RomFile.content [7, 7, 7]) = .error m) ∧
    (RomFile.content [7, 7, 7] = RomFile.readFail →
      ∃ m, load_rom 1 (RomFile.content [7, 7, 7]) = .error m) ∧
    (∀ b, RomFile.content [7, 7, 7] = RomFile.content b → b.length ≠ 1 →
      ∃ m, load_rom 1 (RomFile.content [7, 7, 7]) = .error m) :=
  load_rom_spec 1 (RomFile.content [7, 7, 7])

/-- Helper for C1: the count of a key in a duplicate-free list filtered by
a Boolean predicate is 1 when the key is in the list and satisfies the
predicate, and 0 otherwise. -/
theorem count_filter_nodup (l : List Minifb.Key) (p : Minifb.Key → Bool)
    (hl : l.Nodup) (k : Minifb.Key) :
    (l.filter p).count k = if k ∈ l ∧ p k = true then 1 else 0 := by
  by_cases hk : k ∈ l ∧ p k = true
  · rw [if_pos hk]
    exact List.count_eq_one_of_mem (hl.filter p) (List.mem_filter.mpr ⟨hk.1, hk.2⟩)
  · rw [if_neg hk, List.count_eq_zero]
    intro hmem
    exact hk ⟨(List.mem_filter.mp hmem).1, (List.mem_filter.mp hmem).2⟩

/-- C1: for a poll `keys_down` and the previous snapshot `previous_keys`
(duplicate-free, as snapshots of a set of held keys are), the input stage
fires `key_down` exactly once for each key of `keys_down − previous_keys`
and `key_up` exactly once for each key of `previous_keys − keys_down`, no
key is reported both down and up in the same iteration, and afterwards the
previous snapshot is replaced by `keys_down`; with an empty previous
snapshot — the very first iteration — every held key is newly down and no
up events occur. -/
theorem input_stage_edge_detection (keys_down previous_keys : List Minifb.Key)
    (hc : keys_down.Nodup) (hp : previous_keys.Nodup) :
    (∀ k, (newly_down keys_down previous_keys).count k =
      if k ∈ keys_down ∧ k ∉ previous_keys then 1 else 0) ∧
    (∀ k, (newly_up keys_down previous_keys).count k =
      if k ∈ previous_keys ∧ k ∉ keys_down then 1 else 0) ∧
    (∀ k, ¬(k ∈ newly_down keys_down previous_keys ∧
      k ∈ newly_up keys_down previous_keys)) ∧
    (input_stage (some keys_down) previous_keys).2 = keys_down ∧
    newly_down keys_down [] = keys_down ∧
    newly_up keys_down [] = [] := by
  refine ⟨?_, ?_, ?_, rfl, ?_, rfl⟩
  · intro k
    rw [newly_down, count_filter_nodup _ _ hc k]
    simp only [Bool.not_eq_true', decide_eq_false_iff_not]
  · intro k
    rw [newly_up, count_filter_nodup _ _ hp k]
    simp only [Bool.not_eq_true', decide_eq_false_iff_not]
  · rintro k ⟨hd, hu⟩
    rw [newly_down, List.mem_filter] at hd
    rw [newly_up, List.mem_filter] at hu
    simp only [Bool.not_eq_true', decide_eq_false_iff_not] at hd hu
    exact hd.2 hu.1
  · rw [newly_down]
    apply List.filter_eq_self.mpr
    intro a _
    simp

/-- C1, instantiation of `input_stage_edge_detection` at the poll
containing A and B with previous snapshot containing only B: A is newly
down, nothing is newly up both ways disjointly, and the snapshot becomes
the poll. -/
theorem input_stage_edge_detection_witness :
    ([Minifb.Key.A, Minifb.Key.B] : List Minifb.Key).Nodup ∧
    ([Minifb.Key.B] : List Minifb.Key).Nodup ∧
    ((∀ k, (newly_down [Minifb.Key.A, Minifb.Key.B] [Minifb.Key.B]).count k =
        if k ∈ [Minifb.Key.A, Minifb.Key.B] ∧ k ∉ [Minifb.Key.B] then 1 else 0) ∧
      (∀ k, (newly_up [Minifb.Key.A, Minifb.Key.B] [Minifb.Key.B]).count k =
        if k ∈ [Minifb.Key.B] ∧ k ∉ [Minifb.Key.A, Minifb.Key.B] then 1 else 0) ∧
      (∀ k, ¬(k ∈ newly_down [Minifb.Key.A, Minifb.Key.B] [Minifb.Key.B] ∧
        k ∈ newly_up [Minifb.Key.A, Minifb.Key.B] [Minifb.Key.B])) ∧
      (input_stage (some [Minifb.Key.A, Minifb.Key.B]) [Minifb.Key.B]).2 =
        [Minifb.Key.A, Minifb.Key.B] ∧
      newly_down [Minifb.Key.A, Minifb.Key.B] [] = [Minifb.Key.A, Minifb.Key.B] ∧
      newly_up [Minifb.Key.A, Minifb.Key.B] [] = []) :=
  ⟨by decide, by decide,
    input_stage_edge_detection [Minifb.Key.A, Minifb.Key.B] [Minifb.Key.B]
      (by decide) (by decide)⟩
